import Mathlib

/-!
Verification of the crowdfunding campaign engine in
`src/crowdfund/src/main.rs` (Soroban-style contract).

Shallow embedding conventions:
* `Address` is modelled as `Nat` (identities are only compared for equality).
* `BigInt` (arbitrary-precision signed integer) is modelled as `Int`.
* `Map<Address, BigInt>` is modelled as an association list
  `List (Address × Int)` with Soroban `get` / `insert` (insert replaces the
  value of an existing key, otherwise appends the entry).
* The host environment's clock reading (`env.timestamp()`) and invoker
  identity (`env.invoker()`) are passed as explicit arguments.
* `assert!` panics abort the whole host transaction, leaving the caller's
  `Campaign` state unchanged; they are modelled as `Except.error` results
  carrying no successor state.  The opaque asset-transfer capability
  (`token.transfer_from_contract` / `env.transfer_from_contract`) is modelled
  by a boolean oracle `xferOk`: when it is `false` the transfer traps and the
  operation returns `Except.error Err.TransferFailed`.
* Operations that invoke the transfer capability return, on success, the new
  campaign together with the amount that was actually transferred.
* Event emission (`emit_event`) has no effect on campaign state and is not
  modelled beyond the transferred amounts returned by `withdraw`/`refund`.
-/

namespace Crowdfund

abbrev Address := Nat

/-- Status of a campaign, from `enum CampaignStatus` in `main.rs`. -/
inductive CampaignStatus where
  | Active
  | Successful
  | Failed
  | Expired
deriving DecidableEq, Repr

/-- Campaign aggregate, from `struct Campaign` in `main.rs`.  The `token`
field only selects which of the two opaque transfer capabilities is used, so
its payload is modelled as `Unit`. -/
structure Campaign where
  creator : Address
  goal : Int
  deadline : Nat
  contributions : List (Address × Int)
  total_contributed : Int
  status : CampaignStatus
  token : Option Unit
deriving DecidableEq, Repr

/-- Soroban `Map::get`: value of the first entry with the given key. -/
def mapGet (m : List (Address × Int)) (k : Address) : Option Int :=
  match m with
  | [] => none
  | (k', v) :: rest => if k' = k then some v else mapGet rest k

/-- Soroban `Map::insert`: replace the value of an existing key, otherwise
append the new entry. -/
def mapInsert (m : List (Address × Int)) (k : Address) (v : Int) :
    List (Address × Int) :=
  match m with
  | [] => [(k, v)]
  | (k', v') :: rest =>
      if k' = k then (k, v) :: rest else (k', v') :: mapInsert rest k v

/-- Sum of all values stored in the map (the spec's
`sum(contributions.values())`). -/
def sumValues (m : List (Address × Int)) : Int :=
  (m.map Prod.snd).sum

/-- Failure outcomes.  The Rust code fails by `assert!` panic (messages in
comments) or by a trap of the transfer capability. -/
inductive Err where
  | CampaignEnded      -- "Campaign has ended"
  | InvalidAmount      -- "Contribution must be positive"
  | Unauthorized       -- "Only the creator can withdraw"
  | GoalNotMet         -- "Campaign goal was not met"
  | NotFailed          -- "Campaign was successful, no refund available"
  | NoContribution     -- "No contribution found"
  | TransferFailed     -- transfer capability trapped
deriving DecidableEq, Repr

/-- `create_campaign` from `main.rs`. -/
def create_campaign (invoker : Address) (goal : Int) (deadline : Nat)
    (token : Option Unit) : Campaign :=
  { creator := invoker
    goal := goal
    deadline := deadline
    contributions := []
    total_contributed := 0
    status := CampaignStatus.Active
    token := token }

/-- `contribute` from `main.rs`: requires `now < deadline` and a positive
amount, adds the amount to the invoker's ledger entry and to
`total_contributed`, and sets the status to `Successful` when the new total
reaches the goal. -/
def contribute (now : Nat) (invoker : Address) (campaign : Campaign)
    (amount : Int) : Except Err Campaign :=
  if ¬ now < campaign.deadline then Except.error Err.CampaignEnded
  else if ¬ 0 < amount then Except.error Err.InvalidAmount
  else
    let existing := (mapGet campaign.contributions invoker).getD 0
    let contributions' := mapInsert campaign.contributions invoker (existing + amount)
    let total' := campaign.total_contributed + amount
    let status' :=
      if campaign.goal ≤ total' then CampaignStatus.Successful else campaign.status
    Except.ok { campaign with
                  contributions := contributions'
                  total_contributed := total'
                  status := status' }

/-- `withdraw` from `main.rs`: only the creator, only while `Successful`;
zeroes `total_contributed` and transfers its prior value to the creator.
Returns the transferred amount alongside the new state. -/
def withdraw (invoker : Address) (xferOk : Bool) (campaign : Campaign) :
    Except Err (Campaign × Int) :=
  if ¬ invoker = campaign.creator then Except.error Err.Unauthorized
  else if ¬ campaign.status = CampaignStatus.Successful then
    Except.error Err.GoalNotMet
  else
    let amount := campaign.total_contributed
    let campaign' := { campaign with total_contributed := 0 }
    if xferOk then Except.ok (campaign', amount)
    else Except.error Err.TransferFailed

/-- `refund` from `main.rs`: only while `Failed` and only for an invoker with
a positive ledger entry; zeroes that entry, decrements `total_contributed`
and transfers the entry's prior value back.  Returns the transferred amount
alongside the new state. -/
def refund (invoker : Address) (xferOk : Bool) (campaign : Campaign) :
    Except Err (Campaign × Int) :=
  if ¬ campaign.status = CampaignStatus.Failed then Except.error Err.NotFailed
  else
    let amount := (mapGet campaign.contributions invoker).getD 0
    if ¬ 0 < amount then Except.error Err.NoContribution
    else
      let campaign' := { campaign with
                           contributions := mapInsert campaign.contributions invoker 0
                           total_contributed := campaign.total_contributed - amount }
      if xferOk then Except.ok (campaign', amount)
      else Except.error Err.TransferFailed

/-- `check_status` from `main.rs`: when `now > deadline` it (re)resolves the
status from `total_contributed` vs `goal`, regardless of the current status;
returns the (possibly updated) campaign together with the returned status. -/
def check_status (now : Nat) (campaign : Campaign) :
    Campaign × CampaignStatus :=
  let campaign' :=
    if campaign.deadline < now then
      { campaign with
          status :=
            if campaign.goal ≤ campaign.total_contributed then
              CampaignStatus.Successful
            else CampaignStatus.Failed }
    else campaign
  (campaign', campaign'.status)

/-- `finalize_campaign` from `main.rs`: after the deadline it resolves the
status exactly as `check_status`; at or before the deadline it forces the
status to `Expired`. -/
def finalize_campaign (now : Nat) (campaign : Campaign) : Campaign :=
  if campaign.deadline < now then
    { campaign with
        status :=
          if campaign.goal ≤ campaign.total_contributed then
            CampaignStatus.Successful
          else CampaignStatus.Failed }
  else { campaign with status := CampaignStatus.Expired }

/-- Whether an `Except` result is a success. -/
def isOkE {α : Type} (r : Except Err α) : Bool :=
  match r with
  | Except.ok _ => true
  | Except.error _ => false

/-- Fold `contribute` over a list of `(time, contributor, amount)` calls,
propagating failure. -/
def contributeSeq (campaign : Campaign) :
    List (Nat × Address × Int) → Except Err Campaign
  | [] => Except.ok campaign
  | (t, a, amt) :: rest =>
      match contribute t a campaign amt with
      | Except.ok campaign' => contributeSeq campaign' rest
      | Except.error e => Except.error e

/-- Sum of the amounts in a list of contribution calls. -/
def sumAmounts (l : List (Nat × Address × Int)) : Int :=
  (l.map (fun x => x.2.2)).sum

end Crowdfund
namespace Crowdfund

theorem mapGet_mapInsert_self (m : List (Address × Int)) (k : Address) (v : Int) :
    mapGet (mapInsert m k v) k = some v := by
  induction m with
  | nil => simp [mapInsert, mapGet]
  | cons p rest ih =>
      obtain ⟨k', v'⟩ := p
      by_cases h : k' = k <;> simp [mapInsert, mapGet, h, ih]

theorem sumValues_mapInsert (m : List (Address × Int)) (k : Address) (v : Int) :
    sumValues (mapInsert m k v) =
      sumValues m - (mapGet m k).getD 0 + v := by
  induction m with
  | nil => simp [mapInsert, mapGet, sumValues]
  | cons p rest ih =>
      obtain ⟨k', v'⟩ := p
      by_cases h : k' = k
      · simp [mapInsert, mapGet, h, sumValues]
        ring
      · simp [mapInsert, mapGet, h, sumValues] at ih ⊢
        omega

theorem contribute_eq_ok (now : Nat) (inv : Address) (c : Campaign) (amount : Int)
    (hd : now < c.deadline) (ha : 0 < amount) :
    contribute now inv c amount =
      Except.ok { c with
        contributions :=
          mapInsert c.contributions inv ((mapGet c.contributions inv).getD 0 + amount)
        total_contributed := c.total_contributed + amount
        status :=
          if c.goal ≤ c.total_contributed + amount then CampaignStatus.Successful
          else c.status } := by
  simp [contribute, hd, ha]

end Crowdfund
namespace Crowdfund

/-- C5: if the asset-transfer capability fails during `withdraw` or `refund`,
the whole operation fails (returns an error, hence no successor state: the
caller keeps the campaign exactly as it was — no partial debit). -/
theorem C5_transfer_failure_aborts (inv : Address) (c : Campaign) :
    isOkE (withdraw inv false c) = false ∧ isOkE (refund inv false c) = false := by
  constructor
  · simp only [withdraw]
    split
    · rfl
    · split
      · rfl
      · rfl
  · simp only [refund]
    split
    · rfl
    · split
      · rfl
      · rfl

/-- C8: after the deadline, `finalize_campaign` produces exactly the state and
status that `check_status` produces at the same time (Successful when the goal
is met, Failed otherwise); at or before the deadline it forces `Expired`. -/
theorem C8_finalize_matches_check_status (now : Nat) (c : Campaign) :
    (c.deadline < now →
      finalize_campaign now c = (check_status now c).1 ∧
      (finalize_campaign now c).status = (check_status now c).2 ∧
      (finalize_campaign now c).status =
        (if c.goal ≤ c.total_contributed then CampaignStatus.Successful
         else CampaignStatus.Failed)) ∧
    (¬ c.deadline < now →
      (finalize_campaign now c).status = CampaignStatus.Expired) := by
  constructor
  · intro h
    simp [finalize_campaign, check_status, h]
  · intro h
    simp [finalize_campaign, h]

/-- C9: at the instant the host clock equals the deadline exactly, `contribute`
rejects with `CampaignEnded`, while `check_status` leaves the campaign (and in
particular an Active status) untouched and `finalize_campaign` forces
`Expired`. -/
theorem C9_boundary_disagreement (c : Campaign) (inv : Address) (amount : Int) :
    contribute c.deadline inv c amount = Except.error Err.CampaignEnded ∧
    check_status c.deadline c = (c, c.status) ∧
    finalize_campaign c.deadline c = { c with status := CampaignStatus.Expired } := by
  refine ⟨?_, ?_, ?_⟩
  · simp [contribute]
  · simp [check_status]
  · simp [finalize_campaign]

/-- C10: `contribute` never inspects the campaign's status: under the two
guards (time strictly before the deadline, positive amount) it succeeds for a
campaign in any status whatsoever, adds the amount to the invoker's ledger
entry and to `total_contributed`, and sets the status to `Successful` exactly
when the new total reaches the goal (leaving the old status in place
otherwise). -/
theorem C10_contribute_ignores_status (now : Nat) (inv : Address) (c : Campaign)
    (amount : Int) (hd : now < c.deadline) (ha : 0 < amount) :
    ∃ c', contribute now inv c amount = Except.ok c' ∧
      c'.contributions =
        mapInsert c.contributions inv ((mapGet c.contributions inv).getD 0 + amount) ∧
      c'.total_contributed = c.total_contributed + amount ∧
      (c.goal ≤ c'.total_contributed → c'.status = CampaignStatus.Successful) ∧
      (¬ c.goal ≤ c'.total_contributed → c'.status = c.status) := by
  refine ⟨_, contribute_eq_ok now inv c amount hd ha, rfl, rfl, ?_, ?_⟩
  · intro h
    simp [h]
  · intro h
    simp [h]

/-- Witness for C10 at a concrete input. -/
theorem C10_contribute_ignores_status_witness :
    ∃ c', contribute 5 1 (create_campaign 0 100 10 none) 60 = Except.ok c' ∧
      c'.contributions =
        mapInsert (create_campaign 0 100 10 none).contributions 1
          ((mapGet (create_campaign 0 100 10 none).contributions 1).getD 0 + 60) ∧
      c'.total_contributed = (create_campaign 0 100 10 none).total_contributed + 60 ∧
      ((create_campaign 0 100 10 none).goal ≤ c'.total_contributed →
        c'.status = CampaignStatus.Successful) ∧
      (¬ (create_campaign 0 100 10 none).goal ≤ c'.total_contributed →
        c'.status = (create_campaign 0 100 10 none).status) :=
  C10_contribute_ignores_status 5 1 (create_campaign 0 100 10 none) 60
    (by decide) (by decide)

end Crowdfund
namespace Crowdfund

/-- Witness for C8 at concrete inputs on both sides of the deadline. -/
theorem C8_finalize_matches_check_status_witness :
    (finalize_campaign 11 (create_campaign 0 100 10 none) =
      (check_status 11 (create_campaign 0 100 10 none)).1) ∧
    (finalize_campaign 5 (create_campaign 0 100 10 none)).status =
      CampaignStatus.Expired :=
  ⟨((C8_finalize_matches_check_status 11 (create_campaign 0 100 10 none)).1
      (by decide)).1,
   (C8_finalize_matches_check_status 5 (create_campaign 0 100 10 none)).2
      (by decide)⟩

/-- C1 (counterexample): a successful `withdraw` zeroes `total_contributed`
without clearing the `contributions` map, so afterwards the total (0) differs
from the sum of the ledger entries (100): the invariant does not hold after
every successful operation. -/
theorem C1_cex_withdraw_breaks_sum :
    contribute 5 1 (create_campaign 0 100 10 none) 100 =
      Except.ok (⟨0, 100, 10, [(1, 100)], 100, CampaignStatus.Successful, none⟩ : Campaign) ∧
    withdraw 0 true (⟨0, 100, 10, [(1, 100)], 100, CampaignStatus.Successful, none⟩ : Campaign) =
      Except.ok ((⟨0, 100, 10, [(1, 100)], 0, CampaignStatus.Successful, none⟩ : Campaign), 100) ∧
    (⟨0, 100, 10, [(1, 100)], 0, CampaignStatus.Successful, none⟩ : Campaign).total_contributed = 0 ∧
    sumValues (⟨0, 100, 10, [(1, 100)], 0, CampaignStatus.Successful, none⟩ : Campaign).contributions = 100 := by
  refine ⟨by rfl, by rfl, by rfl, by rfl⟩

/-- C1 (amended): `total_contributed = sum(contributions.values())` is
established by `create_campaign` and preserved by successful `contribute` and
`refund` calls; `check_status` and `finalize_campaign` touch neither field.
`withdraw`, however, zeroes `total_contributed` while leaving the
`contributions` map intact, so it breaks the invariant whenever the ledger sum
is nonzero. -/
theorem C1_sum_invariant_except_withdraw :
    (∀ cr g d tok, (create_campaign cr g d tok).total_contributed =
        sumValues (create_campaign cr g d tok).contributions) ∧
    (∀ now inv amount c c', c.total_contributed = sumValues c.contributions →
        contribute now inv c amount = Except.ok c' →
        c'.total_contributed = sumValues c'.contributions) ∧
    (∀ inv ok c c' a, c.total_contributed = sumValues c.contributions →
        refund inv ok c = Except.ok (c', a) →
        c'.total_contributed = sumValues c'.contributions) ∧
    (∀ now c, (check_status now c).1.total_contributed = c.total_contributed ∧
        (check_status now c).1.contributions = c.contributions) ∧
    (∀ now c, (finalize_campaign now c).total_contributed = c.total_contributed ∧
        (finalize_campaign now c).contributions = c.contributions) ∧
    (∀ inv c c' a, withdraw inv true c = Except.ok (c', a) →
        c'.contributions = c.contributions ∧ c'.total_contributed = 0) := by
  refine ⟨?_, ?_, ?_, ?_, ?_, ?_⟩
  · intro cr g d tok
    simp [create_campaign, sumValues]
  · intro now inv amount c c' hsum h
    simp only [contribute] at h
    split at h
    · exact absurd h (by simp)
    · split at h
      · exact absurd h (by simp)
      · simp only [Except.ok.injEq] at h
        subst h
        simp only [sumValues_mapInsert]
        omega
  · intro inv ok c c' a hsum h
    simp only [refund] at h
    split at h
    · exact absurd h (by simp)
    · split at h
      · exact absurd h (by simp)
      · split at h
        · simp only [Except.ok.injEq, Prod.mk.injEq] at h
          obtain ⟨h1, h2⟩ := h
          subst h1
          simp only [sumValues_mapInsert]
          omega
        · exact absurd h (by simp)
  · intro now c
    simp only [check_status]
    split <;> simp
  · intro now c
    simp only [finalize_campaign]
    split <;> simp
  · intro inv c c' a h
    simp only [withdraw] at h
    split at h
    · exact absurd h (by simp)
    · split at h
      · exact absurd h (by simp)
      · simp only [if_pos] at h
        simp only [Except.ok.injEq, Prod.mk.injEq] at h
        obtain ⟨h1, h2⟩ := h
        subst h1
        exact ⟨rfl, rfl⟩

end Crowdfund
namespace Crowdfund

/-- Witness for C1's amended theorem: the contribute clause applied at a
concrete input. -/
theorem C1_sum_invariant_except_withdraw_witness :
    (⟨0, 100, 10, [(1, 100)], 100, CampaignStatus.Successful, none⟩ : Campaign).total_contributed =
      sumValues (⟨0, 100, 10, [(1, 100)], 100, CampaignStatus.Successful, none⟩ : Campaign).contributions :=
  C1_sum_invariant_except_withdraw.2.1 5 1 100 (create_campaign 0 100 10 none)
    (⟨0, 100, 10, [(1, 100)], 100, CampaignStatus.Successful, none⟩ : Campaign)
    (by rfl) (by rfl)

/-- C2 (counterexample): `check_status` re-derives the status from
`total_contributed` on every post-deadline call, so it is not idempotent
across other operations: a campaign resolved `Successful` at time 11 is
reported `Failed` at time 12 after the creator's `withdraw` zeroed
`total_contributed`. -/
theorem C2_cex_status_flips_after_withdraw :
    check_status 11 (⟨0, 100, 10, [(1, 100)], 100, CampaignStatus.Successful, none⟩ : Campaign) =
      ((⟨0, 100, 10, [(1, 100)], 100, CampaignStatus.Successful, none⟩ : Campaign),
        CampaignStatus.Successful) ∧
    withdraw 0 true (⟨0, 100, 10, [(1, 100)], 100, CampaignStatus.Successful, none⟩ : Campaign) =
      Except.ok ((⟨0, 100, 10, [(1, 100)], 0, CampaignStatus.Successful, none⟩ : Campaign), 100) ∧
    (check_status 12 (⟨0, 100, 10, [(1, 100)], 0, CampaignStatus.Successful, none⟩ : Campaign)).2 =
      CampaignStatus.Failed := by
  refine ⟨by rfl, by rfl, by rfl⟩

/-- C2 (amended): `check_status` in isolation is idempotent: for any two host
times after the deadline, a second `check_status` on the campaign produced by
a first one returns the same campaign and the same status — provided no other
operation (such as `withdraw`, which zeroes `total_contributed`) modified the
campaign in between. -/
theorem C2_check_status_idempotent_alone (t1 t2 : Nat) (c : Campaign)
    (h1 : c.deadline < t1) (h2 : c.deadline < t2) :
    check_status t2 (check_status t1 c).1 =
      ((check_status t1 c).1, (check_status t1 c).2) := by
  simp only [check_status, if_pos h1]
  split <;> simp_all [check_status]

/-- Witness for C2's amended theorem at a concrete input. -/
theorem C2_check_status_idempotent_alone_witness :
    check_status 12 (check_status 11 (⟨0, 100, 10, [(1, 100)], 100, CampaignStatus.Successful, none⟩ : Campaign)).1 =
      ((check_status 11 (⟨0, 100, 10, [(1, 100)], 100, CampaignStatus.Successful, none⟩ : Campaign)).1,
       (check_status 11 (⟨0, 100, 10, [(1, 100)], 100, CampaignStatus.Successful, none⟩ : Campaign)).2) :=
  C2_check_status_idempotent_alone 11 12
    (⟨0, 100, 10, [(1, 100)], 100, CampaignStatus.Successful, none⟩ : Campaign)
    (by decide) (by decide)

/-- C3 (counterexample): the code has no `NothingToWithdraw` guard: after a
first `withdraw` moves the full total (100) to the creator, a second
`withdraw` by the creator also returns successfully, transferring 0, instead
of failing. -/
theorem C3_cex_second_withdraw_succeeds :
    withdraw 0 true (⟨0, 100, 10, [(1, 100)], 100, CampaignStatus.Successful, none⟩ : Campaign) =
      Except.ok ((⟨0, 100, 10, [(1, 100)], 0, CampaignStatus.Successful, none⟩ : Campaign), 100) ∧
    withdraw 0 true (⟨0, 100, 10, [(1, 100)], 0, CampaignStatus.Successful, none⟩ : Campaign) =
      Except.ok ((⟨0, 100, 10, [(1, 100)], 0, CampaignStatus.Successful, none⟩ : Campaign), 0) := by
  refine ⟨by rfl, by rfl⟩

/-- C3 (amended): for every `Successful` campaign, a first `withdraw` by the
creator succeeds and transfers the prior value of `total_contributed`; a
second `withdraw` by the creator does not fail but succeeds again with a zero
transfer (the campaign stays `Successful` and `total_contributed` stays 0). -/
theorem C3_withdraw_then_zero_withdraw (c : Campaign)
    (hs : c.status = CampaignStatus.Successful) :
    withdraw c.creator true c =
      Except.ok ({ c with total_contributed := 0 }, c.total_contributed) ∧
    withdraw c.creator true { c with total_contributed := 0 } =
      Except.ok ({ c with total_contributed := 0 }, 0) := by
  constructor
  · simp [withdraw, hs]
  · simp [withdraw, hs]

/-- Witness for C3's amended theorem at a concrete input. -/
theorem C3_withdraw_then_zero_withdraw_witness :
    withdraw 0 true (⟨0, 100, 10, [(1, 100)], 100, CampaignStatus.Successful, none⟩ : Campaign) =
      Except.ok ((⟨0, 100, 10, [(1, 100)], 0, CampaignStatus.Successful, none⟩ : Campaign), 100) ∧
    withdraw 0 true (⟨0, 100, 10, [(1, 100)], 0, CampaignStatus.Successful, none⟩ : Campaign) =
      Except.ok ((⟨0, 100, 10, [(1, 100)], 0, CampaignStatus.Successful, none⟩ : Campaign), 0) :=
  C3_withdraw_then_zero_withdraw
    (⟨0, 100, 10, [(1, 100)], 100, CampaignStatus.Successful, none⟩ : Campaign) (by rfl)

/-- C4 (counterexample): `Expired` is not terminal: `finalize_campaign` called
at time 5 (before the deadline 10) forces a fresh campaign to `Expired`, and
`finalize_campaign` called again at time 11 (after the deadline) overwrites
that to `Failed`. -/
theorem C4_cex_expired_overwritten :
    (finalize_campaign 5 (create_campaign 0 100 10 none)).status =
      CampaignStatus.Expired ∧
    (finalize_campaign 11 (finalize_campaign 5 (create_campaign 0 100 10 none))).status =
      CampaignStatus.Failed := by
  refine ⟨by rfl, by rfl⟩

/-- C4 (amended): `Successful`, `Failed` and `Expired` are not terminal in
general.  What does hold: `withdraw` and `refund` never change the status, and
`contribute` keeps a `Successful` campaign `Successful`.  But `contribute`
before the deadline sets a campaign of any current status — including a
reachable early-finalized `Expired` one, or `Failed` — to `Successful` as soon
as the new total reaches the goal, and `check_status` / `finalize_campaign`
recompute the status from `total_contributed` and the clock regardless of the
current status (so `finalize_campaign` before the deadline followed by
`finalize_campaign` after it takes `Expired` to `Failed`). -/
theorem C4_status_transitions_under_ops :
    (∀ inv ok c c' a, withdraw inv ok c = Except.ok (c', a) →
        c'.status = c.status) ∧
    (∀ inv ok c c' a, refund inv ok c = Except.ok (c', a) →
        c'.status = c.status) ∧
    (∀ now inv amount c c', c.status = CampaignStatus.Successful →
        contribute now inv c amount = Except.ok c' →
        c'.status = CampaignStatus.Successful) ∧
    (∀ now inv amount c c', contribute now inv c amount = Except.ok c' →
        c.goal ≤ c'.total_contributed →
        c'.status = CampaignStatus.Successful) := by
  refine ⟨?_, ?_, ?_, ?_⟩
  · intro inv ok c c' a h
    simp only [withdraw] at h
    split at h
    · exact absurd h (by simp)
    · split at h
      · exact absurd h (by simp)
      · split at h
        · simp only [Except.ok.injEq, Prod.mk.injEq] at h
          obtain ⟨h1, h2⟩ := h
          subst h1
          rfl
        · exact absurd h (by simp)
  · intro inv ok c c' a h
    simp only [refund] at h
    split at h
    · exact absurd h (by simp)
    · split at h
      · exact absurd h (by simp)
      · split at h
        · simp only [Except.ok.injEq, Prod.mk.injEq] at h
          obtain ⟨h1, h2⟩ := h
          subst h1
          rfl
        · exact absurd h (by simp)
  · intro now inv amount c c' hs h
    simp only [contribute] at h
    split at h
    · exact absurd h (by simp)
    · split at h
      · exact absurd h (by simp)
      · simp only [Except.ok.injEq] at h
        subst h
        simp only
        split
        · rfl
        · exact hs
  · intro now inv amount c c' h hg
    simp only [contribute] at h
    split at h
    · exact absurd h (by simp)
    · split at h
      · exact absurd h (by simp)
      · simp only [Except.ok.injEq] at h
        subst h
        have hg' : c.goal ≤ c.total_contributed + amount := hg
        show (if c.goal ≤ c.total_contributed + amount then CampaignStatus.Successful
              else c.status) = CampaignStatus.Successful
        rw [if_pos hg']

/-- Witness for C4's amended theorem: the goal-reaching contribute clause
applied to a concrete `Expired` campaign, which it sets to `Successful`. -/
theorem C4_status_transitions_under_ops_witness :
    (⟨0, 100, 10, [(1, 100)], 100, CampaignStatus.Successful, none⟩ : Campaign).status =
      CampaignStatus.Successful :=
  C4_status_transitions_under_ops.2.2.2 5 1 100
    (⟨0, 100, 10, [], 0, CampaignStatus.Expired, none⟩ : Campaign)
    (⟨0, 100, 10, [(1, 100)], 100, CampaignStatus.Successful, none⟩ : Campaign)
    (by rfl) (by decide)

end Crowdfund
namespace Crowdfund

/-- C7: on a `Failed` campaign, a contributor with a positive ledger entry is
refunded exactly once: the first `refund` succeeds, transfers exactly the
entry's value, zeroes the entry and decrements `total_contributed` by that
value; a second `refund` by the same contributor fails with `NoContribution`
(producing no new state). -/
theorem C7_refund_exactly_once (inv : Address) (c : Campaign) (v : Int)
    (hs : c.status = CampaignStatus.Failed)
    (hg : mapGet c.contributions inv = some v) (hv : 0 < v) :
    refund inv true c =
      Except.ok
        ({ c with
            contributions := mapInsert c.contributions inv 0,
            total_contributed := c.total_contributed - v }, v) ∧
    refund inv true
        { c with
            contributions := mapInsert c.contributions inv 0,
            total_contributed := c.total_contributed - v } =
      Except.error Err.NoContribution := by
  constructor
  · simp [refund, hs, hg, hv]
  · simp [refund, hs, mapGet_mapInsert_self]

/-- Witness for C7 at a concrete input. -/
theorem C7_refund_exactly_once_witness :
    refund 1 true (⟨0, 100, 10, [(1, 60)], 60, CampaignStatus.Failed, none⟩ : Campaign) =
      Except.ok ((⟨0, 100, 10, [(1, 0)], 0, CampaignStatus.Failed, none⟩ : Campaign), 60) ∧
    refund 1 true (⟨0, 100, 10, [(1, 0)], 0, CampaignStatus.Failed, none⟩ : Campaign) =
      Except.error Err.NoContribution :=
  C7_refund_exactly_once 1
    (⟨0, 100, 10, [(1, 60)], 60, CampaignStatus.Failed, none⟩ : Campaign)
    60 (by rfl) (by rfl) (by decide)

theorem contributeSeq_tracks_goal (L : List (Nat × Address × Int)) :
    ∀ c : Campaign,
      (∀ x ∈ L, x.1 < c.deadline ∧ 0 < x.2.2) →
      c.status = (if c.goal ≤ c.total_contributed then CampaignStatus.Successful
                  else CampaignStatus.Active) →
      ∃ c', contributeSeq c L = Except.ok c' ∧
        c'.goal = c.goal ∧ c'.deadline = c.deadline ∧
        c'.total_contributed = c.total_contributed + sumAmounts L ∧
        c'.status = (if c.goal ≤ c'.total_contributed then CampaignStatus.Successful
                     else CampaignStatus.Active) := by
  induction L with
  | nil =>
      intro c hmem hstat
      exact ⟨c, rfl, rfl, rfl, by simp [sumAmounts], by simpa [sumAmounts] using hstat⟩
  | cons x rest ih =>
      intro c hmem hstat
      obtain ⟨t, a, amt⟩ := x
      obtain ⟨ht, hamt⟩ := hmem _ (List.mem_cons_self _ _)
      have ht' : t < c.deadline := ht
      have hamt' : (0 : Int) < amt := hamt
      have hstep := contribute_eq_ok t a c amt ht' hamt'
      set c1 : Campaign := { c with
        contributions :=
          mapInsert c.contributions a ((mapGet c.contributions a).getD 0 + amt),
        total_contributed := c.total_contributed + amt,
        status := if c.goal ≤ c.total_contributed + amt then CampaignStatus.Successful
                  else c.status } with hc1
      have hmem1 : ∀ x ∈ rest, x.1 < c1.deadline ∧ 0 < x.2.2 := by
        intro y hy
        exact hmem y (List.mem_cons_of_mem _ hy)
      have hstat1 : c1.status =
          (if c1.goal ≤ c1.total_contributed then CampaignStatus.Successful
           else CampaignStatus.Active) := by
        by_cases hgle : c.goal ≤ c.total_contributed + amt
        · simp [hc1, hgle]
        · have hng : ¬ c.goal ≤ c.total_contributed := by omega
          simp only [hc1, if_neg hgle]
          rw [hstat, if_neg hng]
      obtain ⟨c', hrun, hgoal, hdl, htot, hst⟩ := ih c1 hmem1 hstat1
      refine ⟨c', ?_, ?_, ?_, ?_, ?_⟩
      · simp only [contributeSeq, hstep]
        exact hrun
      · simpa [hc1] using hgoal
      · simpa [hc1] using hdl
      · simp only [hc1] at htot
        simp only [sumAmounts, List.map_cons, List.sum_cons] at htot ⊢
        omega
      · simpa [hc1] using hst

/-- C6: starting from a freshly created campaign with a positive goal, for any
sequence of `contribute` calls with positive amounts at times strictly before
the deadline, every run of the first n calls succeeds, leaves
`total_contributed` equal to the sum of the contributed amounts, and the
status is `Successful` precisely when that running sum has reached the goal —
so the status flips at the first call whose cumulative sum reaches `goal` and
never reverts within the sequence. -/
theorem C6_contribute_run_reaches_goal (cr : Address) (g : Int) (d : Nat)
    (tok : Option Unit) (L : List (Nat × Address × Int)) (hg : 0 < g)
    (hL : ∀ x ∈ L, x.1 < d ∧ 0 < x.2.2) (n : Nat) :
    ∃ c', contributeSeq (create_campaign cr g d tok) (L.take n) = Except.ok c' ∧
      c'.total_contributed = sumAmounts (L.take n) ∧
      (c'.status = CampaignStatus.Successful ↔ g ≤ sumAmounts (L.take n)) := by
  have hmem : ∀ x ∈ L.take n,
      x.1 < (create_campaign cr g d tok).deadline ∧ 0 < x.2.2 := by
    intro x hx
    exact hL x (List.take_subset n L hx)
  have hstat : (create_campaign cr g d tok).status =
      (if (create_campaign cr g d tok).goal ≤
          (create_campaign cr g d tok).total_contributed
       then CampaignStatus.Successful else CampaignStatus.Active) := by
    simp only [create_campaign]
    rw [if_neg (by omega)]
  obtain ⟨c', hrun, hgoal, hdl, htot, hst⟩ :=
    contributeSeq_tracks_goal (L.take n) (create_campaign cr g d tok) hmem hstat
  have htot' : c'.total_contributed = sumAmounts (L.take n) := by
    simpa [create_campaign] using htot
  refine ⟨c', hrun, htot', ?_⟩
  rw [hst]
  simp only [create_campaign, htot']
  by_cases hgle : g ≤ sumAmounts (L.take n)
  · simp [hgle]
  · simp [hgle]

/-- Witness for C6 at a concrete input. -/
theorem C6_contribute_run_reaches_goal_witness :
    ∃ c', contributeSeq (create_campaign 0 100 10 none)
        ([(1, 1, 60), (2, 2, 50)].take 2) = Except.ok c' ∧
      c'.total_contributed = sumAmounts ([(1, 1, 60), (2, 2, 50)].take 2) ∧
      (c'.status = CampaignStatus.Successful ↔
        100 ≤ sumAmounts ([(1, 1, 60), (2, 2, 50)].take 2)) :=
  C6_contribute_run_reaches_goal 0 100 10 none [(1, 1, 60), (2, 2, 50)]
    (by decide) (by decide) 2

end Crowdfund
